import Mathlib

/-!
Verification of the jds6600 serial control library (jds6600.py).

The Python class jds6600 is embedded shallowly: the serial port becomes an
explicit state record (open flag, list of written command strings, list of
pending response lines), every method becomes a function from that state to
an Except-result paired with the successor state, and the numeric scaling
rules become functions on rationals and integers.  Python exceptions become
constructors of the Err type.
-/

deriving instance DecidableEq for Except

namespace Jds6600

/-- Error taxonomy of jds6600.py: each constructor corresponds to one of the
exception classes raised by the library (FormatError, UnexpectedValueError,
UnexpectedReplyError, WrongMode, ValueError, TypeError, RuntimeError).
The unexpectedReply constructor carries the received response text, as the
Python UnexpectedReplyError does. -/
inductive Err where
  | formatError : String → Err
  | unexpectedValue : String → Err
  | unexpectedReply : String → Err
  | wrongMode : Err
  | valueError : String → Err
  | typeError : String → Err
  | runtimeError : String → Err
deriving DecidableEq

/-- A parsed response value: a single integer field or a list of integer
fields (Python returns int or list of int from __getrespondsandparse). -/
inductive Val where
  | scalar : ℤ → Val
  | vlist : List ℤ → Val
deriving DecidableEq

/-- Result of a whole read: one parsed line (n = 1) or several (n > 1). -/
inductive Resp where
  | single : Val → Resp
  | multi : List Val → Resp
deriving DecidableEq

/-- State of the serial connection: whether the port is open, the commands
written so far (in order), and the response lines still waiting to be read.
A readline on exhausted input yields the empty string (the 1 second timeout
of the pyserial port). -/
structure SerState where
  is_open : Bool
  written : List String
  input : List String
deriving DecidableEq

/-- Python str.isspace characters relevant to rstrip. -/
def pyspace (c : Char) : Bool :=
  c = ' ' ∨ c = '\t' ∨ c = '\n' ∨ c = '\r' ∨ c = '\x0b' ∨ c = '\x0c'

/-- Helper for splitChar: accumulate the current field (reversed). -/
def splitCharAux (sep : Char) : List Char → List Char → List String
  | [], acc => [String.mk acc.reverse]
  | c :: rest, acc =>
    if c = sep then String.mk acc.reverse :: splitCharAux sep rest []
    else splitCharAux sep rest (c :: acc)

/-- Python str.split with a one-character separator (the library only splits
on the single characters equals, dot and comma). -/
def splitChar (sep : Char) (s : String) : List String :=
  splitCharAux sep s.data []

/-- Python str.rstrip(): drop trailing whitespace. -/
def rstrip (s : String) : String :=
  String.mk (s.data.reverse.dropWhile pyspace).reverse

/-- Python str.upper for the ASCII names used by the library. -/
def upperStr (s : String) : String :=
  String.mk (s.data.map Char.toUpper)

/-- Decimal digit value of a character, if it is a digit. -/
def digToNat (c : Char) : Option ℕ :=
  if '0' ≤ c ∧ c ≤ '9' then some (c.toNat - '0'.toNat) else none

/-- Parse a run of decimal digits (most significant first). -/
def parseDigits : List Char → ℕ → Option ℕ
  | [], acc => some acc
  | c :: rest, acc =>
    match digToNat c with
    | none => none
    | some d => parseDigits rest (acc * 10 + d)

/-- Python int(str): optional surrounding whitespace, optional sign, then at
least one decimal digit; anything else raises ValueError (modelled none). -/
def str2int (s : String) : Option ℤ :=
  let t := ((s.data.dropWhile pyspace).reverse.dropWhile pyspace).reverse
  match t with
  | [] => none
  | '-' :: rest =>
    if rest = [] then none else (parseDigits rest 0).map (fun n => -(n : ℤ))
  | '+' :: rest =>
    if rest = [] then none else (parseDigits rest 0).map (fun n => (n : ℤ))
  | _ => (parseDigits t 0).map (fun n => (n : ℤ))

/-- Python round() on an exact rational: round half to even (bankers
rounding), which is what round does for ints and floats. -/
def pyround (q : ℚ) : ℤ :=
  if q - Rat.floor q < 1/2 then Rat.floor q
  else if 1/2 < q - Rat.floor q then Rat.floor q + 1
  else if Rat.floor q % 2 = 0 then Rat.floor q else Rat.floor q + 1

/-- Python list indexing, including negative-index wraparound; none models
IndexError. -/
def pyget (l : List α) (i : ℤ) : Option α :=
  if 0 ≤ i then l.get? i.toNat
  else if 0 ≤ i + l.length then l.get? (i + l.length).toNat else none

/-- First component of splitting a line once on the equals sign: the echoed
register/op-char field of a response line. -/
def firstcomp (s : String) : String := (splitChar '=' s).headD ""

/-! Register constants of the jds6600 class (the ones the claims use). -/

def FREQUENCY1 : ℤ := 23
def AMPLITUDE1 : ℤ := 25
def OFFSET1 : ℤ := 27
def DUTYCYCLE1 : ℤ := 29
def PHASE : ℤ := 31
def ACTION : ℤ := 32
def MODE : ℤ := 33
def COUNTER_RESETCOUNTER : ℤ := 39

/-- The modes table (register 33): fourteen raw slots, two per logical mode
for the low ids; slots 6 and 7 are the reserved entries (-1, ""). -/
def modes : List (ℤ × String) :=
  [(0, "WAVE_CH1"), (0, "WAVE_CH1"), (1, "WAVE_CH2"), (1, "WAVE_CH2"),
   (2, "SYSTEM"), (2, "SYSTEM"), (-1, ""), (-1, ""), (4, "MEASURE"),
   (5, "COUNTER"), (6, "SWEEP_CH1"), (7, "SWEEP_CH2"), (8, "PULSE"),
   (9, "BURST")]

/-- The frequency multiplier table __freqmultiply = (1,1,1,1/1000,1/1000000). -/
def freqmultiply : List ℚ := [1, 1, 1, 1/1000, 1/1000000]

/-- The action table __action: name to 4-flag pattern. -/
def actioncode (action : String) : Option String :=
  if action = "STOP" then some "0,0,0,0"
  else if action = "COUNT" then some "1,0,0,0"
  else if action = "SWEEP" then some "0,1,0,0"
  else if action = "PULSE" then some "1,0,1,1"
  else if action = "BURST" then some "1,0,0,1"
  else none

/-- Serial readline: pop the next pending line, or the empty string on
timeout (exhausted input), in which case the state is unchanged. -/
def readline (st : SerState) : String × SerState :=
  match st.input with
  | [] => ("", st)
  | l :: rest => (l, { st with input := rest })

/-- The __reg2txt helper: zero-pad a register number below 10. -/
def reg2txt (reg : ℤ) : String :=
  if reg < 10 then "0" ++ toString reg else toString reg

/-- The __parsedata method: split a response line once on equals (tuple
unpack failure raises FormatError), check the dot-terminator count for
register reads (a = 0), check the echoed op-char plus register against the
expected one (mismatch raises FormatError), and return the comma-split
fields of the part before the terminator. -/
def parsedata (reg : Option String) (data : String) (a : ℕ) :
    Except Err (List String) :=
  if a ≠ 0 ∧ a ≠ 1 then .error (.runtimeError (toString a))
  else
    match splitChar '=' data with
    | [one, two] =>
      if a = 0 ∧ (splitChar '.' two).length < 2 then
        .error (.formatError "Parsing Returned data: Invalid format, missing dot")
      else if a = 0 ∧ 2 < (splitChar '.' two).length then
        .error (.formatError "Parsing Returned data: Invalid format, too many dots")
      else
        match reg with
        | some r =>
          if one ≠ ":" ++ (if a = 0 then "r" else "b") ++ r then
            .error (.formatError ("Parsing Return data: send/received reg mismatch: " ++ data))
          else .ok (splitChar ',' ((splitChar '.' two).headD ""))
        | none => .ok (splitChar ',' ((splitChar '.' two).headD ""))
    | _ => .error (.formatError "Parsing Returned data: Invalid format, missing equals")

/-- The multi-field loop body of __getrespondsandparse: convert each field
to an integer; an empty field raises UnexpectedValueError unless this is an
arbitrary-waveform read (a = 1) and the field index retcount is exactly
2048, in which case it is skipped. -/
def parsefields (a : ℕ) : List String → ℕ → Except Err (List ℤ)
  | [], _ => .ok []
  | d :: rest, retcount =>
    if d = "" then
      if ¬(a = 1 ∧ retcount = 2048) then .error (.unexpectedValue d)
      else parsefields a rest (retcount + 1)
    else
      match str2int d with
      | none => .error (.valueError d)
      | some z =>
        match parsefields a rest (retcount + 1) with
        | .error e => .error e
        | .ok tl => .ok (z :: tl)

/-- Processing of one (already rstripped) response line inside
__getrespondsandparse: parse it against the expected register, then return
a scalar for a single field or the integer list for several fields. -/
def linevalue (a : ℕ) (cexp : String) (line : String) : Except Err Val :=
  match parsedata (some cexp) line a with
  | .error e => .error e
  | .ok parseddata =>
    if parseddata.length = 1 then
      match str2int (parseddata.headD "") with
      | none => .error (.valueError (parseddata.headD ""))
      | some z => .ok (.scalar z)
    else
      match parsefields a parseddata 0 with
      | .error e => .error e
      | .ok l => .ok (.vlist l)

/-- The read loop of __getrespondsandparse: read n lines, parsing line i
against expected register c + i; the first failure aborts the loop. -/
def getlines (a : ℕ) : ℤ → ℕ → SerState → Except Err (List Val) × SerState
  | _, 0, st => (.ok [], st)
  | c, n + 1, st =>
    let (l, st1) := readline st
    match linevalue a (reg2txt c) (rstrip l) with
    | .error e => (.error e, st1)
    | .ok v =>
      match getlines a (c + 1) n st1 with
      | (.error e, st2) => (.error e, st2)
      | (.ok vs, st2) => (.ok (v :: vs), st2)

/-- The __getrespondsandparse method: check the a selector, run the read
loop, and unwrap a single-line result. -/
def getrespondsandparse (reg : ℤ) (n a : ℕ) (st : SerState) :
    Except Err Resp × SerState :=
  if a ≠ 0 ∧ a ≠ 1 then (.error (.valueError (toString a)), st)
  else
    match getlines a reg n st with
    | (.error e, st1) => (.error e, st1)
    | (.ok ret, st1) =>
      if n = 1 then (.ok (.single (ret.headD (.scalar 0))), st1)
      else (.ok (.multi ret), st1)

/-- The __sendreadcmd method: validate the a selector and n, then, only when
the port is open, write the read command line. -/
def sendreadcmd (reg : ℤ) (n a : ℕ) (st : SerState) :
    Except Err Unit × SerState :=
  if ¬(a = 0 ∨ a = 1) then (.error (.valueError (toString a)), st)
  else
    let regtxt := reg2txt reg
    if n < 1 then (.error (.valueError (toString n)), st)
    else
      let c := if a = 0 then "r" else "b"
      let n1 := if a = 0 then n else 1
      let n2 := n1 - 1
      if st.is_open then
        (.ok (), { st with
          written := st.written ++ [":" ++ c ++ regtxt ++ "=" ++ toString n2 ++ "." ++ "\n"] })
      else (.ok (), st)

/-- The __getdata method: send the read command, then read and parse. -/
def getdata (reg : ℤ) (n a : ℕ) (st : SerState) : Except Err Resp × SerState :=
  match sendreadcmd reg n a st with
  | (.error e, st1) => (.error e, st1)
  | (.ok _, st1) => getrespondsandparse reg n a st1

/-- Wire text of a write command, as built in __sendwritecmd. -/
def writecmdstr (reg : ℤ) (val : String) (a : ℕ) : String :=
  ":" ++ (if a = 0 then "w" else "a") ++ reg2txt reg ++ "=" ++ val ++ "." ++ "\n"

/-- The __sendwritecmd method: when the port is open, write the command,
read exactly one response line, and raise UnexpectedReplyError carrying the
received text unless that line is the literal token ":ok"; when the port is
closed, do nothing and return normally. -/
def sendwritecmd (reg : ℤ) (val : String) (a : ℕ) (st : SerState) :
    Except Err Unit × SerState :=
  if st.is_open then
    let st1 : SerState := { st with written := st.written ++ [writecmdstr reg val a] }
    let (ret0, st2) := readline st1
    let ret := rstrip ret0
    if ret = ":ok" then (.ok (), st2)
    else (.error (.unexpectedReply ret), st2)
  else (.ok (), st)

/-- The __setaction method: look up the action pattern (an unknown name
raises ValueError) and write it to the ACTION register. -/
def setaction (action : String) (st : SerState) : Except Err Unit × SerState :=
  match actioncode action with
  | none => (.error (.valueError ("Unknown Action: " ++ action)), st)
  | some code => sendwritecmd ACTION code 0 st

/-- counter_reset: write 0 to COUNTER_RESETCOUNTER. -/
def counter_reset (st : SerState) : Except Err Unit × SerState :=
  sendwritecmd COUNTER_RESETCOUNTER (toString (0 : ℤ)) 0 st

/-- burst_resetcounter: same as counter_reset. -/
def burst_resetcounter (st : SerState) : Except Err Unit × SerState :=
  counter_reset st

/-- Pure decoding step of getmode: shift the raw register value right by 3
bits (Python int shift is floor division by 8), index the modes table
(Python indexing), and reject a missing entry or a reserved entry
(modeid below 0) with UnexpectedValueError. -/
def getmodeDecode (v : ℤ) : Except Err (ℤ × String) :=
  match pyget modes (Int.fdiv v 8) with
  | none => .error (.unexpectedValue (toString (Int.fdiv v 8)))
  | some p =>
    if 0 ≤ p.1 then .ok p
    else .error (.unexpectedValue (toString (Int.fdiv v 8)))

/-- The getmode method: read the MODE register and decode it; a non-scalar
reply would make the Python int() conversion raise TypeError. -/
def getmode (st : SerState) : Except Err (ℤ × String) × SerState :=
  match getdata MODE 1 0 st with
  | (.error e, st1) => (.error e, st1)
  | (.ok (.single (.scalar v)), st1) => (getmodeDecode v, st1)
  | (.ok _, st1) => (.error (.typeError "mode"), st1)

/-- Linear search of the modes table by mode name (the for-loop with break
in setmode). -/
def modeLookup : List (ℤ × String) → String → Option ℤ
  | [], _ => none
  | p :: rest, s => if s = p.2 then some p.1 else modeLookup rest s

/-- Argument resolution of setmode: an integer mode must lie in 0..9 and
must not be 3; a string mode must not be empty and must resolve in the
modes table after uppercasing. -/
def resolvemode : ℤ ⊕ String → Except Err ℤ
  | .inl m =>
    if ¬(0 ≤ m ∧ m ≤ 9) then .error (.valueError (toString m))
    else if m = 3 then .error (.valueError "mode 3 does not exist")
    else .ok m
  | .inr s =>
    if s = "" then .error (.valueError "mode 3 does not exist")
    else
      match modeLookup modes (upperStr s) with
      | some mid => .ok mid
      | none => .error (.valueError s)

/-- The setmode method: resolve the requested mode, issue a STOP action
unless nostop, write the MODE register, and reset the burst counter when
entering mode 9 (BURST). -/
def setmode (mode : ℤ ⊕ String) (nostop : Bool) (st : SerState) :
    Except Err Unit × SerState :=
  match resolvemode mode with
  | .error e => (.error e, st)
  | .ok modeid =>
    match (if nostop = false then setaction "STOP" st else (.ok (), st)) with
    | (.error e, st1) => (.error e, st1)
    | (.ok _, st1) =>
      match sendwritecmd MODE (toString modeid) 0 st1 with
      | (.error e, st2) => (.error e, st2)
      | (.ok _, st2) =>
        if modeid = 9 then burst_resetcounter st2 else (.ok (), st2)

/-! Scaling rules of the basic-parameter setters and getters. -/

/-- Amplitude encoding of setamplitude: volts times 1000, rounded. -/
def encodeAmplitude (amplitude : ℚ) : ℤ := pyround (amplitude * 1000)

/-- Amplitude decoding of getamplitude: millivolts divided by 1000. -/
def decodeAmplitude (raw : ℤ) : ℚ := (raw : ℚ) / 1000

/-- Offset encoding of setoffset: volts times 100, rounded, plus 1000. -/
def encodeOffset (offset : ℚ) : ℤ := pyround (offset * 100) + 1000

/-- Offset decoding of getoffset: raw minus 1000, divided by 100. -/
def decodeOffset (raw : ℤ) : ℚ := ((raw : ℚ) - 1000) / 100

/-- Duty-cycle encoding of setdutycycle: percent times 10, rounded. -/
def encodeDuty (dutycycle : ℚ) : ℤ := pyround (dutycycle * 10)

/-- Duty-cycle decoding of getdutycycle: tenths of a percent divided by 10. -/
def decodeDuty (raw : ℤ) : ℚ := (raw : ℚ) / 10

/-- Phase encoding of setphase: a negative phase first gets 3600 added (in
degrees, as the source does), then the result is scaled by 10 and rounded. -/
def encodePhase (phase : ℚ) : ℤ :=
  pyround ((if phase < 0 then phase + 3600 else phase) * 10)

/-- The setamplitude method: channel must be 1 or 2, amplitude in 0..20 V,
then write the encoded millivolt value. -/
def setamplitude (channel : ℤ) (amplitude : ℚ) (st : SerState) :
    Except Err Unit × SerState :=
  if ¬(channel = 1 ∨ channel = 2) then (.error (.valueError (toString channel)), st)
  else if ¬(0 ≤ amplitude ∧ amplitude ≤ 20) then (.error (.valueError "amplitude"), st)
  else sendwritecmd (AMPLITUDE1 + channel - 1) (toString (encodeAmplitude amplitude)) 0 st

/-- The setoffset method: channel must be 1 or 2, offset in -10..10 V, then
write the biased encoded value. -/
def setoffset (channel : ℤ) (offset : ℚ) (st : SerState) :
    Except Err Unit × SerState :=
  if ¬(channel = 1 ∨ channel = 2) then (.error (.valueError (toString channel)), st)
  else if ¬(-10 ≤ offset ∧ offset ≤ 10) then (.error (.valueError "offset"), st)
  else sendwritecmd (OFFSET1 + channel - 1) (toString (encodeOffset offset)) 0 st

/-- The setdutycycle method: channel must be 1 or 2, duty cycle in 0..100
percent, then write the encoded tenths of a percent. -/
def setdutycycle (channel : ℤ) (dutycycle : ℚ) (st : SerState) :
    Except Err Unit × SerState :=
  if ¬(channel = 1 ∨ channel = 2) then (.error (.valueError (toString channel)), st)
  else if ¬(0 ≤ dutycycle ∧ dutycycle ≤ 100) then (.error (.valueError "dutycycle"), st)
  else sendwritecmd (DUTYCYCLE1 + channel - 1) (toString (encodeDuty dutycycle)) 0 st

/-- The setphase method: phase must lie in -360..360 degrees, then the
encoded value is written to the PHASE register. -/
def setphase (phase : ℚ) (st : SerState) : Except Err Unit × SerState :=
  if ¬(-360 ≤ phase ∧ phase ≤ 360) then (.error (.valueError "phase"), st)
  else sendwritecmd PHASE (toString (encodePhase phase)) 0 st

/-- The getamplitude method: read the amplitude register and decode. -/
def getamplitude (channel : ℤ) (st : SerState) : Except Err ℚ × SerState :=
  if ¬(channel = 1 ∨ channel = 2) then (.error (.valueError (toString channel)), st)
  else
    match getdata (AMPLITUDE1 + channel - 1) 1 0 st with
    | (.error e, st1) => (.error e, st1)
    | (.ok (.single (.scalar raw)), st1) => (.ok (decodeAmplitude raw), st1)
    | (.ok _, st1) => (.error (.typeError "amplitude"), st1)

/-- The getoffset method: read the offset register and decode. -/
def getoffset (channel : ℤ) (st : SerState) : Except Err ℚ × SerState :=
  if ¬(channel = 1 ∨ channel = 2) then (.error (.valueError (toString channel)), st)
  else
    match getdata (OFFSET1 + channel - 1) 1 0 st with
    | (.error e, st1) => (.error e, st1)
    | (.ok (.single (.scalar raw)), st1) => (.ok (decodeOffset raw), st1)
    | (.ok _, st1) => (.error (.typeError "offset"), st1)

/-- The getdutycycle method: read the duty-cycle register and decode. -/
def getdutycycle (channel : ℤ) (st : SerState) : Except Err ℚ × SerState :=
  if ¬(channel = 1 ∨ channel = 2) then (.error (.valueError (toString channel)), st)
  else
    match getdata (DUTYCYCLE1 + channel - 1) 1 0 st with
    | (.error e, st1) => (.error e, st1)
    | (.ok (.single (.scalar raw)), st1) => (.ok (decodeDuty raw), st1)
    | (.ok _, st1) => (.error (.typeError "dutycycle"), st1)

/-- The frequency cap applied by setfrequency, keyed on the multiplier:
60 MHz for multipliers below 3, 80 kHz for multiplier 3, 80 Hz otherwise. -/
def freqcap (multiplier : ℤ) : ℚ :=
  if multiplier < 3 then 60000000 else if multiplier = 3 then 80000 else 80

/-- The value string setfrequency writes: frequency times 100 divided by
the multiplier scale, rounded, then a comma and the multiplier. -/
def freqvalstr (freq : ℚ) (multiplier : ℤ) : String :=
  toString (pyround (freq * 100 / ((pyget freqmultiply multiplier).getD 0)))
    ++ "," ++ toString multiplier

/-- The setfrequency method: validate channel and sign, query the current
mode and refuse with WrongMode while the matching sweep mode is active,
validate the multiplier (the Python code raises a TypeError there because
it subscripts the ValueError class), enforce the per-multiplier frequency
cap, then encode and send the register write. -/
def setfrequency (channel : ℤ) (freq : ℚ) (multiplier : ℤ) (st : SerState) :
    Except Err Unit × SerState :=
  if ¬(channel = 1 ∨ channel = 2) then (.error (.valueError (toString channel)), st)
  else if freq < 0 then (.error (.valueError "freq"), st)
  else
    match getmode st with
    | (.error e, st1) => (.error e, st1)
    | (.ok currentmode, st1) =>
      if channel = 1 ∧ currentmode.2 = "SWEEP_CH1" then (.error .wrongMode, st1)
      else if channel = 2 ∧ currentmode.2 = "SWEEP_CH2" then (.error .wrongMode, st1)
      else
        match pyget freqmultiply multiplier with
        | none => (.error (.typeError "ValueError subscripted"), st1)
        | some fm =>
          let caperr : Option Err :=
            if multiplier < 3 then
              (if 60000000 < freq then
                some (.valueError "Maximum frequency using this multiplier is 60 MHz.")
              else none)
            else if multiplier = 3 then
              (if 80000 < freq then
                some (.valueError "Maximum frequency using multiplier 3 is 80 KHz.")
              else none)
            else
              (if 80 < freq then
                some (.valueError "Maximum frequency using multiplier 4 is 80 Hz.")
              else none)
          match caperr with
          | some e => (.error e, st1)
          | none =>
            let f := pyround (freq * 100 / fm)
            let value := toString f ++ "," ++ toString multiplier
            sendwritecmd (FREQUENCY1 + channel - 1) value 0 st1

/-- The counter_start method: requires current mode COUNTER, then issues
the COUNT action. -/
def counter_start (st : SerState) : Except Err Unit × SerState :=
  match getmode st with
  | (.error e, st1) => (.error e, st1)
  | (.ok mode, st1) =>
    if mode.2 ≠ "COUNTER" then (.error .wrongMode, st1)
    else setaction "COUNT" st1

/-- The counter_stop method: just send STOP. -/
def counter_stop (st : SerState) : Except Err Unit × SerState :=
  setaction "STOP" st

/-- The sweep_start method: requires current mode SWEEP_CH1 or SWEEP_CH2,
then issues the SWEEP action. -/
def sweep_start (st : SerState) : Except Err Unit × SerState :=
  match getmode st with
  | (.error e, st1) => (.error e, st1)
  | (.ok mode, st1) =>
    if mode.2 ≠ "SWEEP_CH1" ∧ mode.2 ≠ "SWEEP_CH2" then (.error .wrongMode, st1)
    else setaction "SWEEP" st1

/-- The sweep_stop method: just send STOP. -/
def sweep_stop (st : SerState) : Except Err Unit × SerState :=
  setaction "STOP" st

/-- The pulse_start method: requires current mode PULSE, then issues the
PULSE action. -/
def pulse_start (st : SerState) : Except Err Unit × SerState :=
  match getmode st with
  | (.error e, st1) => (.error e, st1)
  | (.ok mode, st1) =>
    if mode.2 ≠ "PULSE" then (.error .wrongMode, st1)
    else setaction "PULSE" st1

/-- The pulse_stop method: just send STOP. -/
def pulse_stop (st : SerState) : Except Err Unit × SerState :=
  setaction "STOP" st

/-- The burst_start method: requires current mode BURST, then issues the
BURST action. -/
def burst_start (st : SerState) : Except Err Unit × SerState :=
  match getmode st with
  | (.error e, st1) => (.error e, st1)
  | (.ok mode, st1) =>
    if mode.2 ≠ "BURST" then (.error .wrongMode, st1)
    else setaction "BURST" st1

/-- The burst_stop method: just send STOP. -/
def burst_stop (st : SerState) : Except Err Unit × SerState :=
  setaction "STOP" st

/-- The stopallactions method: just send STOP. -/
def stopallactions (st : SerState) : Except Err Unit × SerState :=
  setaction "STOP" st

/-- The payload loop of arb_setwave: every sample must lie in 0..4095
(a violation raises ValueError), and the samples are joined with commas. -/
def buildwave : List ℤ → String → Except Err String
  | [], acc => .ok acc
  | v :: rest, acc =>
    if ¬(0 ≤ v ∧ v ≤ 4095) then .error (.valueError "wave")
    else buildwave rest (if acc = "" then toString v else acc ++ "," ++ toString v)

/-- The arb_setwave method: slot in 1..60, payload of exactly 2048 samples
each in 0..4095, then one arbitrary-waveform write. -/
def arb_setwave (waveid : ℤ) (wave : List ℤ) (st : SerState) :
    Except Err Unit × SerState :=
  if ¬(1 ≤ waveid ∧ waveid ≤ 60) then (.error (.valueError (toString waveid)), st)
  else if wave.length ≠ 2048 then (.error (.valueError "wave"), st)
  else
    match buildwave wave "" with
    | .error e => (.error e, st)
    | .ok tosend => sendwritecmd waveid tosend 1 st

/-- The arb_getwave method: slot in 1..60, then one arbitrary-waveform
read. -/
def arb_getwave (waveid : ℤ) (st : SerState) : Except Err Resp × SerState :=
  if ¬(1 ≤ waveid ∧ waveid ≤ 60) then (.error (.valueError (toString waveid)), st)
  else getdata waveid 1 1 st

/-! Helper lemmas. -/

/-- The executable Rat.floor agrees with the floor of the ordered field. -/
theorem ratfloor_eq (q : ℚ) : Rat.floor q = ⌊q⌋ := by
  rw [Rat.floor_def', Rat.floor_def]

/-- Bankers rounding is within half a unit of its argument. -/
theorem pyround_abs (q : ℚ) : |((pyround q : ℤ) : ℚ) - q| ≤ 1/2 := by
  have hfl : ((Rat.floor q : ℤ) : ℚ) ≤ q := by rw [ratfloor_eq]; exact Int.floor_le q
  have hfu : q < ((Rat.floor q : ℤ) : ℚ) + 1 := by rw [ratfloor_eq]; exact Int.lt_floor_add_one q
  unfold pyround
  split_ifs with h1 h2 h3
  · rw [abs_le]; constructor <;> linarith
  · rw [abs_le]; push_cast; constructor <;> linarith
  · rw [abs_le]; constructor <;> linarith
  · rw [abs_le]; push_cast; constructor <;> linarith

/-- Bankers rounding of an integer is the integer itself. -/
theorem pyround_intCast (n : ℤ) : pyround ((n : ℤ) : ℚ) = n := by
  unfold pyround
  rw [ratfloor_eq, Int.floor_intCast]
  norm_num

/-- readline pops the head of the pending input (default empty on
timeout) and keeps the tail. -/
theorem readline_eq (st : SerState) :
    readline st = (st.input.headD "", { st with input := st.input.tail }) := by
  rcases st with ⟨o, w, input⟩
  cases input <;> rfl

/-- getD after tail is getD at the successor index. -/
theorem getD_tail (l : List α) (k : ℕ) (d : α) :
    (l.tail).getD k d = l.getD (k + 1) d := by
  cases l <;> simp [List.getD]

/-- getD at index zero is headD. -/
theorem getD_zero (l : List α) (d : α) : l.getD 0 d = l.headD d := by
  cases l <;> rfl

/-- State with the first pending input line consumed (identity when no
input is pending, matching the serial timeout). -/
def popline (st : SerState) : SerState :=
  ⟨st.is_open, st.written, st.input.tail⟩

/-- readline expressed through headD and popline. -/
theorem readline_eq2 (st : SerState) :
    readline st = (st.input.headD "", popline st) := by
  rcases st with ⟨o, w, input⟩
  cases input <;> rfl

/-- Python indexing only returns elements of the list. -/
theorem pyget_mem {l : List α} {i : ℤ} {x : α} (h : pyget l i = some x) : x ∈ l := by
  unfold pyget at h
  split_ifs at h
  · exact List.get?_mem h
  · exact List.get?_mem h

/-- Dividing a rounded value and the exact value by the same positive scale
keeps them within half a quantization step. -/
theorem pyround_div_abs (y c : ℚ) (hc : 0 < c) :
    |((pyround y : ℤ) : ℚ) / c - y / c| ≤ 1 / (2 * c) := by
  rw [div_sub_div_same, abs_div, abs_of_pos hc]
  rw [div_le_div_iff₀ hc (by positivity)]
  have h1 := pyround_abs y
  have h2 : |((pyround y : ℤ) : ℚ) - y| * (2 * c) ≤ (1 / 2) * (2 * c) :=
    mul_le_mul_of_nonneg_right h1 (by positivity)
  linarith

/-- Characterization of parsedata for a register read (a = 0) with an
expected register string. -/
theorem parsedata0 (cexp line : String) :
    parsedata (some cexp) line 0 =
      match splitChar '=' line with
      | [one, two] =>
        if (splitChar '.' two).length < 2 then
          .error (.formatError "Parsing Returned data: Invalid format, missing dot")
        else if 2 < (splitChar '.' two).length then
          .error (.formatError "Parsing Returned data: Invalid format, too many dots")
        else if one ≠ ":r" ++ cexp then
          .error (.formatError ("Parsing Return data: send/received reg mismatch: " ++ line))
        else .ok (splitChar ',' ((splitChar '.' two).headD ""))
      | _ => .error (.formatError "Parsing Returned data: Invalid format, missing equals") := by
  unfold parsedata
  have hr : (":" : String) ++ "r" = ":r" := rfl
  rcases splitChar '=' line with _ | ⟨one, _ | ⟨two, _ | rest⟩⟩ <;>
    simp [hr]

/-- Successful parsing of a line as a register read forces the part before
the equals sign to be the expected ":r" plus register echo. -/
theorem linevalue0_echo {cexp line : String} {v : Val}
    (h : linevalue 0 cexp line = .ok v) : firstcomp line = ":r" ++ cexp := by
  obtain ⟨l, hl⟩ : ∃ l, parsedata (some cexp) line 0 = .ok l := by
    unfold linevalue at h
    rcases hq : parsedata (some cexp) line 0 with e | l
    · rw [hq] at h
      exact absurd h (by simp)
    · exact ⟨l, rfl⟩
  rw [parsedata0] at hl
  unfold firstcomp
  rcases hs : splitChar '=' line with _ | ⟨one, _ | ⟨two, _ | rest⟩⟩ <;>
    simp only [hs] at hl ⊢
  · exact absurd hl (by simp)
  · exact absurd hl (by simp)
  · split_ifs at hl with h1 h2 h3
    all_goals
      first
        | exact Except.noConfusion hl
        | simpa using not_not.mp h3
  · exact absurd hl (by simp)

/-- A line whose echoed part before the equals sign is not the expected
":r" plus register makes the line parse fail with a FormatError. -/
theorem linevalue0_mismatch {cexp line : String}
    (h : firstcomp line ≠ ":r" ++ cexp) :
    ∃ msg, linevalue 0 cexp line = .error (.formatError msg) := by
  obtain ⟨msg, hmsg⟩ :
      ∃ msg, parsedata (some cexp) line 0 = .error (.formatError msg) := by
    rw [parsedata0]
    unfold firstcomp at h
    rcases hs : splitChar '=' line with _ | ⟨one, _ | ⟨two, _ | rest⟩⟩ <;>
      simp only [hs] at h ⊢
    · exact ⟨_, rfl⟩
    · exact ⟨_, rfl⟩
    · by_cases h1 : (splitChar '.' two).length < 2
      · rw [if_pos h1]
        exact ⟨_, rfl⟩
      · rw [if_neg h1]
        by_cases h2 : 2 < (splitChar '.' two).length
        · rw [if_pos h2]
          exact ⟨_, rfl⟩
        · rw [if_neg h2, if_pos (by simpa using h)]
          exact ⟨_, rfl⟩
    · exact ⟨_, rfl⟩
  exact ⟨msg, by unfold linevalue; rw [hmsg]⟩

/-- One step of the read loop: read the next pending line, parse it against
the expected register, and recurse on the rest. -/
theorem getlines_succ (a : ℕ) (c : ℤ) (m : ℕ) (st : SerState) :
    getlines a c (m + 1) st =
      match linevalue a (reg2txt c) (rstrip (st.input.headD "")) with
      | .error e => (.error e, popline st)
      | .ok v =>
        match getlines a (c + 1) m (popline st) with
        | (.error e, st2) => (.error e, st2)
        | (.ok vs, st2) => (.ok (v :: vs), st2) := by
  rcases st with ⟨o, w, input⟩
  cases input <;> rfl

/-- A successful read loop parsed every line i against expected register
c + i. -/
theorem getlines_ok_echo (a : ℕ) (n : ℕ) :
    ∀ (c : ℤ) (st : SerState) (vs : List Val) (st2 : SerState),
      getlines a c n st = (.ok vs, st2) →
      ∀ i, i < n →
        ∃ v, linevalue a (reg2txt (c + (i : ℤ))) (rstrip (st.input.getD i "")) = .ok v := by
  induction n with
  | zero =>
    intro c st vs st2 h i hi
    omega
  | succ m ih =>
    intro c st vs st2 h i hi
    rw [getlines_succ] at h
    rcases hl : linevalue a (reg2txt c) (rstrip (st.input.headD "")) with e | v
    · rw [hl] at h
      exact absurd h (by simp)
    · rw [hl] at h
      rcases hrec : getlines a (c + 1) m (popline st) with ⟨res2, st3⟩
      rw [hrec] at h
      rcases i with _ | j
      · refine ⟨v, ?_⟩
        rw [getD_zero]
        simpa using hl
      · rcases res2 with e2 | vs2
        · exact absurd h (by simp)
        · obtain ⟨v2, hv2⟩ := ih (c + 1) (popline st) vs2 st3 hrec j (by omega)
          refine ⟨v2, ?_⟩
          have e1 : c + ((j + 1 : ℕ) : ℤ) = (c + 1) + (j : ℤ) := by push_cast; ring
          rw [e1, ← getD_tail]
          simpa [popline] using hv2

/-- If the lines before position i parse correctly but line i echoes the
wrong register prefix, the read loop aborts with a FormatError. -/
theorem getlines_first_bad (i : ℕ) :
    ∀ (n : ℕ) (c : ℤ) (st : SerState), i < n →
      (∀ j, j < i →
        ∃ v, linevalue 0 (reg2txt (c + (j : ℤ))) (rstrip (st.input.getD j "")) = .ok v) →
      firstcomp (rstrip (st.input.getD i "")) ≠ ":r" ++ reg2txt (c + (i : ℤ)) →
      ∃ msg st2, getlines 0 c n st = (.error (.formatError msg), st2) := by
  induction i with
  | zero =>
    intro n c st hn hgood hbad
    obtain ⟨m, rfl⟩ : ∃ m, n = m + 1 := ⟨n - 1, by omega⟩
    rw [getlines_succ]
    rw [getD_zero] at hbad
    obtain ⟨msg, hmsg⟩ := @linevalue0_mismatch (reg2txt c)
      (rstrip (st.input.headD "")) (by simpa using hbad)
    rw [hmsg]
    exact ⟨msg, popline st, rfl⟩
  | succ j ihj =>
    intro n c st hn hgood hbad
    obtain ⟨m, rfl⟩ : ∃ m, n = m + 1 := ⟨n - 1, by omega⟩
    rw [getlines_succ]
    obtain ⟨v0, hv0⟩ := hgood 0 (by omega)
    rw [getD_zero] at hv0
    have hv02 : linevalue 0 (reg2txt c) (rstrip (st.input.headD "")) = .ok v0 := by
      simpa using hv0
    rw [hv02]
    have hgood2 : ∀ j2, j2 < j →
        ∃ v, linevalue 0 (reg2txt ((c + 1) + (j2 : ℤ)))
          (rstrip ((popline st).input.getD j2 "")) = .ok v := by
      intro j2 hj2
      obtain ⟨v2, hv2⟩ := hgood (j2 + 1) (by omega)
      refine ⟨v2, ?_⟩
      have e1 : (c + 1) + (j2 : ℤ) = c + ((j2 + 1 : ℕ) : ℤ) := by push_cast; ring
      rw [e1]
      simpa [popline, getD_tail] using hv2
    have hbad2 : firstcomp (rstrip ((popline st).input.getD j ""))
        ≠ ":r" ++ reg2txt ((c + 1) + (j : ℤ)) := by
      have e1 : (c + 1) + (j : ℤ) = c + ((j + 1 : ℕ) : ℤ) := by push_cast; ring
      rw [e1]
      simpa [popline, getD_tail] using hbad
    obtain ⟨msg, st2, hrec⟩ := ihj m (c + 1) (popline st) (by omega) hgood2 hbad2
    rw [hrec]
    exact ⟨msg, st2, rfl⟩

/-! Claim theorems. -/

/-- C1: a multi-register read of n consecutive registers starting at r
parses n response lines; a successful parse forces line i to echo ":r"
plus the register r + i before the equals sign, and if the lines before
position i parse correctly while line i echoes a different prefix, the
whole operation aborts with a FormatError and returns no value. -/
theorem c1_register_echo (r : ℤ) (n : ℕ) (st : SerState) (i : ℕ) (hi : i < n) :
    (∀ res st2, getrespondsandparse r n 0 st = (.ok res, st2) →
      firstcomp (rstrip (st.input.getD i "")) = ":r" ++ reg2txt (r + (i : ℤ)))
    ∧ ((∀ j, j < i →
        ∃ v, linevalue 0 (reg2txt (r + (j : ℤ))) (rstrip (st.input.getD j "")) = .ok v) →
      firstcomp (rstrip (st.input.getD i "")) ≠ ":r" ++ reg2txt (r + (i : ℤ)) →
      ∃ msg st2, getrespondsandparse r n 0 st =
        (.error (.formatError msg), st2)) := by
  constructor
  · intro res st2 h
    unfold getrespondsandparse at h
    rw [if_neg (by simp)] at h
    rcases hg : getlines 0 r n st with ⟨res2, st3⟩
    rw [hg] at h
    rcases res2 with e | vs
    · exact absurd h (by simp)
    · obtain ⟨v, hv⟩ := getlines_ok_echo 0 n r st vs st3 hg i hi
      exact linevalue0_echo hv
  · intro hgood hbad
    obtain ⟨msg, st2, hrec⟩ := getlines_first_bad i n r st hi hgood hbad
    refine ⟨msg, st2, ?_⟩
    unfold getrespondsandparse
    rw [if_neg (by simp), hrec]

/-- C1 witness: reading two registers starting at 0, a second line echoing
register 05 instead of 01 aborts the read with a FormatError. -/
theorem c1_register_echo_witness :
    ∃ msg st2, getrespondsandparse 0 2 0 ⟨true, [], [":r00=5.", ":r05=7."]⟩ =
      (.error (.formatError msg), st2) :=
  (c1_register_echo 0 2 ⟨true, [], [":r00=5.", ":r05=7."]⟩ 1 (by omega)).2
    (fun j hj => by
      interval_cases j
      exact ⟨.scalar 5, by decide⟩)
    (by decide)

/-- State after __sendwritecmd wrote its command and read one reply line:
the command is appended to the written trace and one line of input is
consumed. -/
def afterwrite (reg : ℤ) (val : String) (a : ℕ) (st : SerState) : SerState :=
  ⟨st.is_open, st.written ++ [writecmdstr reg val a], st.input.tail⟩

/-- C2: for every write (register write a = 0 or arbitrary-waveform write
a = 1) on an open connection, exactly one response line is read after the
command is written; the call raises UnexpectedReplyError carrying the
received text whenever the line is not the literal token ":ok", and
returns normally when it is. -/
theorem c2_write_ack (reg : ℤ) (val : String) (a : ℕ) (st : SerState)
    (h : st.is_open = true) :
    (rstrip (st.input.headD "") = ":ok" →
      sendwritecmd reg val a st = (.ok (), afterwrite reg val a st))
    ∧ (rstrip (st.input.headD "") ≠ ":ok" →
      sendwritecmd reg val a st =
        (.error (.unexpectedReply (rstrip (st.input.headD ""))),
          afterwrite reg val a st)) := by
  constructor <;> intro hret <;>
    rw [List.headD_eq_head?] at hret <;>
    simp [sendwritecmd, afterwrite, h, readline_eq, hret]

/-- C2 witness: a concrete not-ok reply raises UnexpectedReplyError with
the received text, and a concrete ok reply succeeds. -/
theorem c2_write_ack_witness :
    sendwritecmd 25 "5000" 0 ⟨true, [], ["nope"]⟩ =
      (.error (.unexpectedReply "nope"),
        afterwrite 25 "5000" 0 ⟨true, [], ["nope"]⟩)
    ∧ sendwritecmd 25 "5000" 0 ⟨true, [], [":ok"]⟩ =
      (.ok (), afterwrite 25 "5000" 0 ⟨true, [], [":ok"]⟩) :=
  ⟨(c2_write_ack 25 "5000" 0 ⟨true, [], ["nope"]⟩ (by decide)).2 (by decide),
   (c2_write_ack 25 "5000" 0 ⟨true, [], [":ok"]⟩ (by decide)).1 (by decide)⟩

/-- C4: the code of setphase adds 3600 to a negative phase in degrees
before the times-10 scaling, so setphase (-90) encodes and writes the raw
value 35100, not 2700 = encodePhase 270 as the normalization into
tenths of a degree in the range 0..3599 would give. -/
theorem c4_setphase_unit_bug :
    encodePhase (-90) = 35100 ∧ encodePhase 270 = 2700 ∧
    encodePhase (-90) ≠ encodePhase 270 ∧
    setphase (-90) ⟨true, [], [":ok"]⟩ =
      (.ok (), ⟨true, [":w31=35100." ++ "\n"], []⟩) := by
  have h1 : encodePhase (-90) = 35100 := by
    unfold encodePhase
    have e : ((if (-90 : ℚ) < 0 then (-90 : ℚ) + 3600 else (-90 : ℚ)) * 10)
        = ((35100 : ℤ) : ℚ) := by norm_num
    rw [e, pyround_intCast]
  have h2 : encodePhase 270 = 2700 := by
    unfold encodePhase
    have e : ((if (270 : ℚ) < 0 then (270 : ℚ) + 3600 else (270 : ℚ)) * 10)
        = ((2700 : ℤ) : ℚ) := by norm_num
    rw [e, pyround_intCast]
  refine ⟨h1, h2, by rw [h1, h2]; decide, ?_⟩
  unfold setphase
  rw [if_neg (by norm_num), h1]
  decide

/-- C5: for each scaling rule, decoding the raw value produced by encoding
an in-range engineering value returns it within one quantization step:
amplitude (volts times 1000), offset (volts times 100 plus bias 1000) and
duty cycle (percent times 10). -/
theorem c5_scaling_roundtrip (x : ℚ) :
    ((0 ≤ x ∧ x ≤ 20) → |decodeAmplitude (encodeAmplitude x) - x| ≤ 1/1000)
    ∧ ((-10 ≤ x ∧ x ≤ 10) → |decodeOffset (encodeOffset x) - x| ≤ 1/100)
    ∧ ((0 ≤ x ∧ x ≤ 100) → |decodeDuty (encodeDuty x) - x| ≤ 1/10) := by
  refine ⟨fun _ => ?_, fun _ => ?_, fun _ => ?_⟩
  · have e : decodeAmplitude (encodeAmplitude x) - x
        = ((pyround (x * 1000) : ℤ) : ℚ) / 1000 - (x * 1000) / 1000 := by
      unfold decodeAmplitude encodeAmplitude; ring
    rw [e]
    calc |((pyround (x * 1000) : ℤ) : ℚ) / 1000 - (x * 1000) / 1000|
        ≤ 1 / (2 * 1000) := pyround_div_abs (x * 1000) 1000 (by norm_num)
      _ ≤ 1/1000 := by norm_num
  · have e : decodeOffset (encodeOffset x) - x
        = ((pyround (x * 100) : ℤ) : ℚ) / 100 - (x * 100) / 100 := by
      unfold decodeOffset encodeOffset; push_cast; ring
    rw [e]
    calc |((pyround (x * 100) : ℤ) : ℚ) / 100 - (x * 100) / 100|
        ≤ 1 / (2 * 100) := pyround_div_abs (x * 100) 100 (by norm_num)
      _ ≤ 1/100 := by norm_num
  · have e : decodeDuty (encodeDuty x) - x
        = ((pyround (x * 10) : ℤ) : ℚ) / 10 - (x * 10) / 10 := by
      unfold decodeDuty encodeDuty; ring
    rw [e]
    calc |((pyround (x * 10) : ℤ) : ℚ) / 10 - (x * 10) / 10|
        ≤ 1 / (2 * 10) := pyround_div_abs (x * 10) 10 (by norm_num)
      _ ≤ 1/10 := by norm_num

/-- C5 witness: the round trips instantiated at concrete in-range values. -/
theorem c5_scaling_roundtrip_witness :
    |decodeAmplitude (encodeAmplitude 5) - 5| ≤ 1/1000
    ∧ |decodeOffset (encodeOffset (-3/2)) - (-3/2)| ≤ 1/100
    ∧ |decodeDuty (encodeDuty (33/10)) - 33/10| ≤ 1/10 :=
  ⟨(c5_scaling_roundtrip 5).1 (by norm_num),
   (c5_scaling_roundtrip (-3/2)).2.1 (by norm_num),
   (c5_scaling_roundtrip (33/10)).2.2 (by norm_num)⟩

/-- C10: with the serial port closed, every write command is silently
dropped (no write, no acknowledgement read, normal return), the read
command send is skipped, and getdata still attempts the response parse on
the untouched state. -/
theorem c10_closed_port (st : SerState) (h : st.is_open = false) :
    (∀ reg val a, sendwritecmd reg val a st = (.ok (), st))
    ∧ (∀ reg n a, (a = 0 ∨ a = 1) → 1 ≤ n →
        sendreadcmd reg n a st = (.ok (), st))
    ∧ (∀ reg n a, (a = 0 ∨ a = 1) → 1 ≤ n →
        getdata reg n a st = getrespondsandparse reg n a st)
    ∧ (∀ channel amplitude, (channel = 1 ∨ channel = 2) →
        0 ≤ amplitude → amplitude ≤ 20 →
        setamplitude channel amplitude st = (.ok (), st)) := by
  have hw : ∀ reg val a, sendwritecmd reg val a st = (.ok (), st) := by
    intro reg val a
    simp [sendwritecmd, h]
  have hr : ∀ reg n a, (a = 0 ∨ a = 1) → 1 ≤ n →
      sendreadcmd reg n a st = (.ok (), st) := by
    intro reg n a ha hn
    simp [sendreadcmd, h, ha, Nat.not_lt.mpr hn]
  refine ⟨hw, hr, ?_, ?_⟩
  · intro reg n a ha hn
    unfold getdata
    rw [hr reg n a ha hn]
  · intro channel amplitude hch h0 h20
    unfold setamplitude
    rw [if_neg (not_not_intro hch), if_neg (not_not_intro ⟨h0, h20⟩), hw]

/-- C6: the reserved mode id 3 is rejected in both directions: getmode
(via its decoding step getmodeDecode) never returns mode id 3 and raises
UnexpectedValueError whenever the indexed table entry is missing or is a
reserved entry, and setmode rejects the integer 3 and the empty mode name
with ValueError while leaving the connection state untouched. -/
theorem c6_mode3_rejected :
    (∀ v mid mtxt, getmodeDecode v = .ok (mid, mtxt) → mid ≠ 3)
    ∧ (∀ st p st1, getmode st = (.ok p, st1) → p.1 ≠ 3)
    ∧ (∀ v : ℤ, (pyget modes (Int.fdiv v 8) = none ∨
        (∃ t, pyget modes (Int.fdiv v 8) = some (-1, t))) →
        ∃ s, getmodeDecode v = .error (.unexpectedValue s))
    ∧ (∀ ns st, setmode (.inl 3) ns st =
        (.error (.valueError "mode 3 does not exist"), st))
    ∧ (∀ ns st, setmode (.inr "") ns st =
        (.error (.valueError "mode 3 does not exist"), st)) := by
  have htab : ∀ p ∈ modes, p.1 ≠ 3 := by decide
  have hP : ∀ (v : ℤ) (p : ℤ × String), getmodeDecode v = .ok p → p.1 ≠ 3 := by
    intro v p h
    unfold getmodeDecode at h
    rcases hp : pyget modes (Int.fdiv v 8) with _ | q <;> simp only [hp] at h
    · exact absurd h (by simp)
    · by_cases h0 : 0 ≤ q.1
      · rw [if_pos h0] at h
        have hq : q = p := by simpa using h
        have := htab q (pyget_mem hp)
        rwa [hq] at this
      · rw [if_neg h0] at h
        exact absurd h (by simp)
  refine ⟨fun v mid mtxt h => hP v (mid, mtxt) h, ?_, ?_, ?_, ?_⟩
  · intro st p st1 h
    unfold getmode at h
    rcases hg : getdata MODE 1 0 st with ⟨res, st2⟩
    rw [hg] at h
    rcases res with e | r
    · simp at h
    · rcases r with v | l
      · rcases v with z | zl
        · simp only [Prod.mk.injEq] at h
          exact hP z p h.1
        · simp at h
      · simp at h
  · intro v h
    refine ⟨toString (Int.fdiv v 8), ?_⟩
    unfold getmodeDecode
    rcases h with h | ⟨t, h⟩
    · rw [h]
    · rw [h]
      rfl
  · intro ns st
    unfold setmode
    rw [show resolvemode (.inl 3) = .error (.valueError "mode 3 does not exist")
      from by decide]
  · intro ns st
    unfold setmode
    rw [show resolvemode (.inr "") = .error (.valueError "mode 3 does not exist")
      from by decide]

/-- C6 witness: raw mode value 48 decodes to the reserved table slot 6 and
is rejected, and concrete setmode calls with 3 and the empty name fail. -/
theorem c6_mode3_rejected_witness :
    (∃ s, getmodeDecode 48 = .error (.unexpectedValue s))
    ∧ setmode (.inl 3) false ⟨true, [], []⟩ =
        (.error (.valueError "mode 3 does not exist"), ⟨true, [], []⟩)
    ∧ setmode (.inr "") false ⟨true, [], []⟩ =
        (.error (.valueError "mode 3 does not exist"), ⟨true, [], []⟩) :=
  ⟨c6_mode3_rejected.2.2.1 48 (Or.inr ⟨"", by decide⟩),
   c6_mode3_rejected.2.2.2.1 false ⟨true, [], []⟩,
   c6_mode3_rejected.2.2.2.2 false ⟨true, [], []⟩⟩

/-- C7: each start action requires the matching mode and raises WrongMode
without sending anything on a mismatch, while every stop operation is the
unconditional write of the STOP pattern to the ACTION register. -/
theorem c7_action_mode_coupling (st st1 : SerState) (mid : ℤ) (mtxt : String)
    (hm : getmode st = (.ok (mid, mtxt), st1)) :
    (mtxt ≠ "COUNTER" → counter_start st = (.error .wrongMode, st1))
    ∧ (mtxt = "COUNTER" → counter_start st = setaction "COUNT" st1)
    ∧ (mtxt ≠ "SWEEP_CH1" → mtxt ≠ "SWEEP_CH2" →
        sweep_start st = (.error .wrongMode, st1))
    ∧ ((mtxt = "SWEEP_CH1" ∨ mtxt = "SWEEP_CH2") →
        sweep_start st = setaction "SWEEP" st1)
    ∧ (mtxt ≠ "PULSE" → pulse_start st = (.error .wrongMode, st1))
    ∧ (mtxt = "PULSE" → pulse_start st = setaction "PULSE" st1)
    ∧ (mtxt ≠ "BURST" → burst_start st = (.error .wrongMode, st1))
    ∧ (mtxt = "BURST" → burst_start st = setaction "BURST" st1)
    ∧ (∀ st0 : SerState,
        counter_stop st0 = sendwritecmd ACTION "0,0,0,0" 0 st0
        ∧ sweep_stop st0 = sendwritecmd ACTION "0,0,0,0" 0 st0
        ∧ pulse_stop st0 = sendwritecmd ACTION "0,0,0,0" 0 st0
        ∧ burst_stop st0 = sendwritecmd ACTION "0,0,0,0" 0 st0
        ∧ stopallactions st0 = sendwritecmd ACTION "0,0,0,0" 0 st0) := by
  have hstop : ∀ st0 : SerState,
      setaction "STOP" st0 = sendwritecmd ACTION "0,0,0,0" 0 st0 := by
    intro st0
    unfold setaction
    rw [show actioncode "STOP" = some "0,0,0,0" from by decide]
  refine ⟨?_, ?_, ?_, ?_, ?_, ?_, ?_, ?_, ?_⟩
  · intro h
    simp only [counter_start, hm]
    rw [if_pos (by simpa using h)]
  · intro h
    simp only [counter_start, hm]
    rw [if_neg (by simp [h])]
  · intro h1 h2
    simp only [sweep_start, hm]
    rw [if_pos (by simp [h1, h2])]
  · intro h
    simp only [sweep_start, hm]
    rcases h with h | h <;> rw [if_neg (by simp [h])]
  · intro h
    simp only [pulse_start, hm]
    rw [if_pos (by simpa using h)]
  · intro h
    simp only [pulse_start, hm]
    rw [if_neg (by simp [h])]
  · intro h
    simp only [burst_start, hm]
    rw [if_pos (by simpa using h)]
  · intro h
    simp only [burst_start, hm]
    rw [if_neg (by simp [h])]
  · intro st0
    exact ⟨hstop st0, hstop st0, hstop st0, hstop st0, hstop st0⟩

/-- C7 witness: with raw mode 72 (COUNTER) read from the device,
counter_start proceeds to the COUNT action while sweep_start raises
WrongMode after the mode query, and a stop writes the STOP pattern. -/
theorem c7_action_mode_coupling_witness :
    counter_start ⟨true, [], [":r33=72.", ":ok"]⟩ =
      setaction "COUNT" ⟨true, [":r33=0." ++ "\n"], [":ok"]⟩
    ∧ sweep_start ⟨true, [], [":r33=72.", ":ok"]⟩ =
      (.error .wrongMode, ⟨true, [":r33=0." ++ "\n"], [":ok"]⟩)
    ∧ sweep_stop ⟨true, [], [":ok"]⟩ =
      sendwritecmd ACTION "0,0,0,0" 0 ⟨true, [], [":ok"]⟩ :=
  ⟨(c7_action_mode_coupling ⟨true, [], [":r33=72.", ":ok"]⟩
      ⟨true, [":r33=0." ++ "\n"], [":ok"]⟩ 5 "COUNTER" (by decide)).2.1 rfl,
   (c7_action_mode_coupling ⟨true, [], [":r33=72.", ":ok"]⟩
      ⟨true, [":r33=0." ++ "\n"], [":ok"]⟩ 5 "COUNTER" (by decide)).2.2.1
      (by decide) (by decide),
   ((c7_action_mode_coupling ⟨true, [], [":r33=72.", ":ok"]⟩
      ⟨true, [":r33=0." ++ "\n"], [":ok"]⟩ 5 "COUNTER" (by decide)).2.2.2.2.2.2.2.2
      ⟨true, [], [":ok"]⟩).2.1⟩

/-- C8: setfrequency first queries the current mode and refuses with
WrongMode, without writing the frequency register, whenever the mode is
the sweep mode of the target channel. -/
theorem c8_freq_sweep_guard (channel : ℤ) (freq : ℚ) (multiplier : ℤ)
    (st st1 : SerState) (mid : ℤ) (mtxt : String)
    (hch : channel = 1 ∨ channel = 2) (hf : 0 ≤ freq)
    (hm : getmode st = (.ok (mid, mtxt), st1))
    (hsw : (channel = 1 ∧ mtxt = "SWEEP_CH1") ∨ (channel = 2 ∧ mtxt = "SWEEP_CH2")) :
    setfrequency channel freq multiplier st = (.error .wrongMode, st1) := by
  unfold setfrequency
  rw [if_neg (not_not_intro hch), if_neg (not_lt.mpr hf)]
  simp only [hm]
  rcases hsw with ⟨h1, h2⟩ | ⟨h1, h2⟩
  · rw [if_pos (by simp [h1, h2])]
  · rw [if_neg (by rintro ⟨hc, -⟩; rw [h1] at hc; norm_num at hc),
      if_pos (by simp [h1, h2])]

/-- C8 witness: with raw mode 80 (SWEEP_CH1) read from the device,
setfrequency on channel 1 raises WrongMode right after the mode query. -/
theorem c8_freq_sweep_guard_witness :
    setfrequency 1 1000 0 ⟨true, [], [":r33=80.", ":ok"]⟩ =
      (.error .wrongMode, ⟨true, [":r33=0." ++ "\n"], [":ok"]⟩) :=
  c8_freq_sweep_guard 1 1000 0 ⟨true, [], [":r33=80.", ":ok"]⟩
    ⟨true, [":r33=0." ++ "\n"], [":ok"]⟩ 6 "SWEEP_CH1"
    (Or.inl rfl) (by norm_num) (by decide) (Or.inl ⟨rfl, rfl⟩)

/-- C3: for a valid channel, a non-negative frequency, and a multiplier in
0..4, setfrequency raises ValueError (writing nothing) whenever the
frequency exceeds the cap of the chosen multiplier, and otherwise encodes
the value and sends the register write. -/
theorem c3_freq_caps (channel : ℤ) (freq : ℚ) (multiplier : ℤ)
    (st st1 : SerState) (mid : ℤ) (mtxt : String)
    (hch : channel = 1 ∨ channel = 2) (hf : 0 ≤ freq)
    (hm : getmode st = (.ok (mid, mtxt), st1))
    (hs1 : ¬(channel = 1 ∧ mtxt = "SWEEP_CH1"))
    (hs2 : ¬(channel = 2 ∧ mtxt = "SWEEP_CH2"))
    (hm0 : 0 ≤ multiplier) (hm4 : multiplier ≤ 4) :
    (freqcap multiplier < freq →
      ∃ msg, setfrequency channel freq multiplier st =
        (.error (.valueError msg), st1))
    ∧ (freq ≤ freqcap multiplier →
      setfrequency channel freq multiplier st =
        sendwritecmd (FREQUENCY1 + channel - 1) (freqvalstr freq multiplier) 0 st1) := by
  obtain ⟨fm, hp⟩ : ∃ fm, pyget freqmultiply multiplier = some fm := by
    have hlen : multiplier.toNat < freqmultiply.length := by
      simp only [freqmultiply, List.length]
      omega
    refine ⟨freqmultiply.get ⟨multiplier.toNat, hlen⟩, ?_⟩
    unfold pyget
    rw [if_pos hm0]
    exact List.get?_eq_get hlen
  unfold setfrequency
  rw [if_neg (not_not_intro hch), if_neg (not_lt.mpr hf)]
  simp only [hm]
  rw [if_neg (by simpa using hs1), if_neg (by simpa using hs2)]
  simp only [hp]
  unfold freqcap
  by_cases hlt : multiplier < 3
  · rw [if_pos hlt, if_pos hlt]
    constructor
    · intro hcap
      exact ⟨"Maximum frequency using this multiplier is 60 MHz.",
        by rw [if_pos hcap]⟩
    · intro hcap
      rw [if_neg (not_lt.mpr hcap)]
      simp [freqvalstr, hp]
  · by_cases heq : multiplier = 3
    · rw [if_neg hlt, if_neg hlt, if_pos heq, if_pos heq]
      constructor
      · intro hcap
        exact ⟨"Maximum frequency using multiplier 3 is 80 KHz.",
          by rw [if_pos hcap]⟩
      · intro hcap
        rw [if_neg (not_lt.mpr hcap)]
        simp [freqvalstr, hp]
    · rw [if_neg hlt, if_neg hlt, if_neg heq, if_neg heq]
      constructor
      · intro hcap
        exact ⟨"Maximum frequency using multiplier 4 is 80 Hz.",
          by rw [if_pos hcap]⟩
      · intro hcap
        rw [if_neg (not_lt.mpr hcap)]
        simp [freqvalstr, hp]

/-- C3 witness: with the device in WAVE_CH1 mode, 60000001 Hz with the Hz
multiplier is refused with ValueError and 60000000 Hz is encoded and
sent. -/
theorem c3_freq_caps_witness :
    (∃ msg, setfrequency 1 60000001 0 ⟨true, [], [":r33=0.", ":ok"]⟩ =
      (.error (.valueError msg), ⟨true, [":r33=0." ++ "\n"], [":ok"]⟩))
    ∧ setfrequency 1 60000000 0 ⟨true, [], [":r33=0.", ":ok"]⟩ =
      sendwritecmd (FREQUENCY1 + 1 - 1) (freqvalstr 60000000 0) 0
        ⟨true, [":r33=0." ++ "\n"], [":ok"]⟩ :=
  ⟨(c3_freq_caps 1 60000001 0 ⟨true, [], [":r33=0.", ":ok"]⟩
      ⟨true, [":r33=0." ++ "\n"], [":ok"]⟩ 0 "WAVE_CH1"
      (Or.inl rfl) (by norm_num) (by decide) (by decide) (by decide)
      (by decide) (by decide)).1 (by norm_num [freqcap]),
   (c3_freq_caps 1 60000000 0 ⟨true, [], [":r33=0.", ":ok"]⟩
      ⟨true, [":r33=0." ++ "\n"], [":ok"]⟩ 0 "WAVE_CH1"
      (Or.inl rfl) (by norm_num) (by decide) (by decide) (by decide)
      (by decide) (by decide)).2 (by norm_num [freqcap])⟩

/-- Skipping a block of non-empty integer fields shifts the field counter
of parsefields by the length of the block and prepends their values. -/
theorem parsefields_append (a : ℕ) (good : List String)
    (hgood : ∀ d ∈ good, d ≠ "" ∧ (str2int d).isSome) :
    ∀ (k : ℕ) (rest : List String),
      parsefields a (good ++ rest) k =
        match parsefields a rest (k + good.length) with
        | .error e => .error e
        | .ok tl => .ok (good.filterMap str2int ++ tl) := by
  induction good with
  | nil =>
    intro k rest
    simp only [List.nil_append, List.filterMap_nil, List.length_nil, Nat.add_zero]
    rcases parsefields a rest k with e | tl <;> simp
  | cons d good2 ih =>
    intro k rest
    obtain ⟨hd1, hd2⟩ := hgood d (List.mem_cons_self d good2)
    obtain ⟨z, hz⟩ := Option.isSome_iff_exists.mp hd2
    have hrec := ih (fun d2 hd => hgood d2 (List.mem_cons_of_mem d hd)) (k + 1) rest
    simp only [List.cons_append, parsefields, if_neg hd1, hz, List.append_eq,
      List.length_cons]
    rw [hrec]
    have hlen : k + 1 + good2.length = k + (good2.length + 1) := by omega
    rw [hlen]
    rcases parsefields a rest (k + (good2.length + 1)) with e | tl <;>
      simp [List.filterMap_cons, hz]

/-- C9: the arbitrary-waveform payload is exactly 2048 in-range samples:
arb_setwave rejects with ValueError, sending nothing, a slot outside 1..60,
a payload whose length is not 2048, or an out-of-range sample; on download,
an empty data field is an UnexpectedValueError unless it is the single
field right after the 2048th sample, which is dropped. -/
theorem c9_arb_payload :
    (∀ waveid wave st, ¬(1 ≤ waveid ∧ waveid ≤ 60) →
      arb_setwave waveid wave st = (.error (.valueError (toString waveid)), st))
    ∧ (∀ waveid wave st, (1 ≤ waveid ∧ waveid ≤ 60) → wave.length ≠ 2048 →
      arb_setwave waveid wave st = (.error (.valueError "wave"), st))
    ∧ (∀ waveid wave st, (1 ≤ waveid ∧ waveid ≤ 60) → wave.length = 2048 →
      (∃ v ∈ wave, ¬(0 ≤ v ∧ v ≤ 4095)) →
      arb_setwave waveid wave st = (.error (.valueError "wave"), st))
    ∧ (∀ good rest : List String, (∀ d ∈ good, d ≠ "" ∧ (str2int d).isSome) →
      good.length ≠ 2048 →
      parsefields 1 (good ++ "" :: rest) 0 = .error (.unexpectedValue ""))
    ∧ (∀ good : List String, (∀ d ∈ good, d ≠ "" ∧ (str2int d).isSome) →
      good.length = 2048 →
      parsefields 1 (good ++ [""]) 0 = .ok (good.filterMap str2int)) := by
  have hbw : ∀ wave : List ℤ, (∃ v ∈ wave, ¬(0 ≤ v ∧ v ≤ 4095)) →
      ∀ acc, buildwave wave acc = .error (.valueError "wave") := by
    intro wave
    induction wave with
    | nil =>
      rintro ⟨v, hv, -⟩
      cases hv
    | cons w ws ih =>
      rintro ⟨v, hv, hbad⟩ acc
      rcases List.mem_cons.mp hv with rfl | hv2
      · unfold buildwave
        rw [if_pos hbad]
      · unfold buildwave
        by_cases hw : ¬(0 ≤ w ∧ w ≤ 4095)
        · rw [if_pos hw]
        · rw [if_neg hw]
          exact ih ⟨v, hv2, hbad⟩ _
  refine ⟨?_, ?_, ?_, ?_, ?_⟩
  · intro waveid wave st h
    unfold arb_setwave
    rw [if_pos h]
  · intro waveid wave st h1 h2
    unfold arb_setwave
    rw [if_neg (not_not_intro h1), if_pos h2]
  · intro waveid wave st h1 h2 hex
    unfold arb_setwave
    rw [if_neg (not_not_intro h1), if_neg (not_not_intro h2), hbw wave hex ""]
  · intro good rest hgood hlen
    rw [parsefields_append 1 good hgood 0 ("" :: rest)]
    have h0 : parsefields 1 ("" :: rest) (0 + good.length) =
        .error (.unexpectedValue "") := by
      have hc : ¬(1 = 1 ∧ 0 + good.length = 2048) := by simpa using hlen
      unfold parsefields
      rw [if_pos rfl, if_pos hc]
    rw [h0]
  · intro good hgood hlen
    rw [parsefields_append 1 good hgood 0 [""]]
    have h0 : parsefields 1 [""] (0 + good.length) = .ok [] := by
      have hc : ¬¬(1 = 1 ∧ 0 + good.length = 2048) := by simpa using hlen
      unfold parsefields
      rw [if_pos rfl, if_neg hc]
      rfl
    rw [h0]
    simp

set_option maxRecDepth 40000 in
/-- C9 witness: concrete rejections of a bad slot, a short payload and an
out-of-range sample, one misplaced empty field error, and the tolerated
single empty field after 2048 samples. -/
theorem c9_arb_payload_witness :
    arb_setwave 0 [] ⟨true, [], []⟩ =
      (.error (.valueError (toString (0 : ℤ))), ⟨true, [], []⟩)
    ∧ arb_setwave 1 [5] ⟨true, [], []⟩ =
      (.error (.valueError "wave"), ⟨true, [], []⟩)
    ∧ arb_setwave 1 (List.replicate 2048 5000) ⟨true, [], []⟩ =
      (.error (.valueError "wave"), ⟨true, [], []⟩)
    ∧ parsefields 1 (List.replicate 3 "7" ++ "" :: []) 0 =
      .error (.unexpectedValue "")
    ∧ parsefields 1 (List.replicate 2048 "7" ++ [""]) 0 =
      .ok ((List.replicate 2048 "7").filterMap str2int) :=
  ⟨c9_arb_payload.1 0 [] ⟨true, [], []⟩ (by decide),
   c9_arb_payload.2.1 1 [5] ⟨true, [], []⟩ (by decide) (by decide),
   c9_arb_payload.2.2.1 1 (List.replicate 2048 5000) ⟨true, [], []⟩
     (by decide) (by simp)
     ⟨5000, List.mem_replicate.mpr ⟨by norm_num, rfl⟩, by decide⟩,
   c9_arb_payload.2.2.2.1 (List.replicate 3 "7") [] (by decide) (by decide),
   c9_arb_payload.2.2.2.2 (List.replicate 2048 "7")
     (fun d hd => by
       rw [List.eq_of_mem_replicate hd]
       exact ⟨by decide, by decide⟩)
     (by simp)⟩

/-- C10 witness: a concrete closed-port state with concrete arguments. -/
theorem c10_closed_port_witness :
    sendwritecmd 25 "5000" 0 ⟨false, [], []⟩ = (.ok (), ⟨false, [], []⟩)
    ∧ sendreadcmd 33 1 0 ⟨false, [], []⟩ = (.ok (), ⟨false, [], []⟩)
    ∧ getdata 33 1 0 ⟨false, [], []⟩ = getrespondsandparse 33 1 0 ⟨false, [], []⟩
    ∧ setamplitude 1 5 ⟨false, [], []⟩ = (.ok (), ⟨false, [], []⟩) :=
  ⟨(c10_closed_port ⟨false, [], []⟩ rfl).1 25 "5000" 0,
   (c10_closed_port ⟨false, [], []⟩ rfl).2.1 33 1 0 (Or.inl rfl) (by decide),
   (c10_closed_port ⟨false, [], []⟩ rfl).2.2.1 33 1 0 (Or.inl rfl) (by decide),
   (c10_closed_port ⟨false, [], []⟩ rfl).2.2.2 1 5 (Or.inl rfl) (by norm_num) (by norm_num)⟩

end Jds6600
